import Mathlib

/-!
Shallow embedding of the session-affinity and resource-lifecycle layer of a
browser-automation service, translated from `session_manager.py` and `api.py`.

Modelling conventions:
- The durable redis store is modelled by typed association lists.  The program
  only ever writes the four hash fields `created_at`, `last_active`,
  `current_url`, `browser_id` of a `session:{id}` key, so the hash is modelled
  as a record of optional fields (an absent field is `none`); ISO-format
  timestamps round-trip through `datetime.fromisoformat`, so they are kept as
  `Nat` values directly.  The `session:{id}` and `history:{id}` key namespaces
  are modelled as two separate maps keyed by the session id.
- `datetime.now()` and `uuid.uuid4()` are modelled by explicit supplies
  (`Env`), consumed in the exact order the source performs the calls.
- Key expiry: a key carries `ttl : Option Nat`; `redis.expire key t` sets it to
  `some t`; a key freshly created by `hset`/`rpush` has no ttl (`none`).
  Expired or absent keys are simply absent from the map.
- A live `Browser` handle is modelled by a `Nat` identity drawn from a
  construction counter `nextBrowser`: each `Browser(config=...)` construction
  returns the counter value and increments it, so the counter counts exactly
  how many browser resources have been constructed.  The pool
  `SessionManager.browsers` is a map whose keys are `Option String` because
  the Python dict can be keyed by `None` (the result of a failed `hget`).
- Fallible operations return `Except`; raising `HTTPException(status, detail)`
  is `Except.error ⟨status, detail⟩`.  Total Lean functions model Python
  functions that cannot raise.
-/

namespace Agentics

/-! ### Generic association-list maps (the redis keyspace and the browser pool) -/

def lookupA {K V : Type} [DecidableEq K] : List (K × V) → K → Option V
  | [], _ => none
  | (k0, v0) :: t, k => if k0 = k then some v0 else lookupA t k

def setA {K V : Type} [DecidableEq K] : List (K × V) → K → V → List (K × V)
  | [], k, v => [(k, v)]
  | (k0, v0) :: t, k, v => if k0 = k then (k, v) :: t else (k0, v0) :: setA t k v

def delA {K V : Type} [DecidableEq K] : List (K × V) → K → List (K × V)
  | [], _ => []
  | (k0, v0) :: t, k => if k0 = k then delA t k else (k0, v0) :: delA t k

theorem lookupA_setA_self {K V : Type} [DecidableEq K] (l : List (K × V)) (k : K) (v : V) :
    lookupA (setA l k v) k = some v := by
  induction l with
  | nil => simp [setA, lookupA]
  | cons hd t ih =>
    obtain ⟨k0, v0⟩ := hd
    by_cases h : k0 = k
    · simp [setA, h, lookupA]
    · simp [setA, h, lookupA, ih]

theorem lookupA_setA_ne {K V : Type} [DecidableEq K] {l : List (K × V)} {k k2 : K} {v : V}
    (h : k2 ≠ k) : lookupA (setA l k v) k2 = lookupA l k2 := by
  have hs : k ≠ k2 := Ne.symm h
  induction l with
  | nil => simp [setA, lookupA, hs]
  | cons hd t ih =>
    obtain ⟨k0, v0⟩ := hd
    by_cases h0 : k0 = k
    · subst h0
      simp [setA, lookupA, hs]
    · simp [setA, h0, lookupA, ih]

theorem lookupA_delA_self {K V : Type} [DecidableEq K] (l : List (K × V)) (k : K) :
    lookupA (delA l k) k = none := by
  induction l with
  | nil => simp [delA, lookupA]
  | cons hd t ih =>
    obtain ⟨k0, v0⟩ := hd
    by_cases h : k0 = k
    · simp [delA, h, ih]
    · simp [delA, h, lookupA, ih]

theorem lookupA_delA_ne {K V : Type} [DecidableEq K] {l : List (K × V)} {k k2 : K}
    (h : k2 ≠ k) : lookupA (delA l k) k2 = lookupA l k2 := by
  have hs : k ≠ k2 := Ne.symm h
  induction l with
  | nil => simp [delA]
  | cons hd t ih =>
    obtain ⟨k0, v0⟩ := hd
    by_cases h0 : k0 = k
    · subst h0
      simp [delA, lookupA, hs, ih]
    · simp [delA, h0, lookupA, ih]

theorem lookupA_mem {K V : Type} [DecidableEq K] (l : List (K × V)) (k : K) (v : V)
    (h : lookupA l k = some v) : k ∈ l.map Prod.fst := by
  induction l with
  | nil => simp [lookupA] at h
  | cons hd t ih =>
    obtain ⟨k0, v0⟩ := hd
    by_cases h0 : k0 = k
    · simp [h0]
    · simp [lookupA, h0] at h
      simp [ih h]

/-! ### Effect supplies: `datetime.now()` and `uuid.uuid4()` -/

/-- Explicit supplies for the two impure value sources the code consults:
the wall clock (`datetime.now()`, one `Nat` per call) and the uuid generator
(`uuid.uuid4()`, one `String` per call).  Operations consume them in exactly
the order the Python source performs the calls. -/
structure Env where
  clock : List Nat
  uuids : List String
  deriving Repr, DecidableEq

def envNow (e : Env) : Nat × Env :=
  (e.clock.headD 0, ⟨e.clock.tail, e.uuids⟩)

def envUuid (e : Env) : String × Env :=
  (e.uuids.headD "", ⟨e.clock, e.uuids.tail⟩)

/-! ### Data model: the durable store and the in-process manager state -/

/-- Python truthiness of an optional string: `None` and `""` are falsy. -/
def optTruthy : Option String → Bool
  | none => false
  | some s => !(s == "")

/-- The `session:{id}` redis hash, restricted to the four fields the program
ever writes; `none` models an absent field.  The same shape also serves as the
partial field mapping passed to `hset(key, mapping=...)` (the program never
passes an empty mapping, which redis would reject). -/
structure SessionHash where
  created_at : Option Nat
  last_active : Option Nat
  current_url : Option String
  browser_id : Option String
  deriving Repr, DecidableEq

/-- Field-wise overwrite, the effect of `hset(key, mapping=data)` on the
fields present in `data`. -/
def hsetMerge (old new : SessionHash) : SessionHash where
  created_at := match new.created_at with | some v => some v | none => old.created_at
  last_active := match new.last_active with | some v => some v | none => old.last_active
  current_url := match new.current_url with | some v => some v | none => old.current_url
  browser_id := match new.browser_id with | some v => some v | none => old.browser_id

/-- A live `session:{id}` key: its hash plus its expiry state (`none` = no
ttl set, `some t` = the key expires `t` seconds after the last touch). -/
structure Entry where
  hash : SessionHash
  ttl : Option Nat
  deriving Repr, DecidableEq

/-- One history entry, as built by the `/api/execute-task` handler before it
is JSON-encoded and `rpush`ed; `add_history` stamps the `timestamp` field. -/
structure HistoryItem where
  task : String
  ragflow_response : String
  detailed_task : String
  result : String
  url : Option String
  timestamp : Option Nat
  deriving Repr, DecidableEq

/-- A live `history:{id}` key: the `rpush`ed list plus its expiry state. -/
structure HEntry where
  items : List HistoryItem
  ttl : Option Nat
  deriving Repr, DecidableEq

/-- The durable store: the `session:{id}` and `history:{id}` key namespaces,
keyed by session id. -/
structure Store where
  sessions : List (String × Entry)
  histories : List (String × HEntry)
  deriving Repr, DecidableEq

/-- The in-process `SessionManager` state: the store handle, the browser pool
`self.browsers` (keys are `Option String`: a failed `hget` yields `None`,
which Python happily uses as a dict key), and the browser-construction
counter supplying fresh handle identities. -/
structure SM where
  store : Store
  browsers : List (Option String × Nat)
  nextBrowser : Nat
  deriving Repr, DecidableEq

def SESSION_TIMEOUT : Nat := 1800

/-! ### Redis primitives specialised to the two key namespaces -/

/-- Effect of `redis.hset(f"session:{sid}", mapping=d)`: merge into an
existing hash, or create the key (with no ttl) when absent. -/
def hsetSession (st : Store) (sid : String) (d : SessionHash) : Store :=
  match lookupA st.sessions sid with
  | none => ⟨setA st.sessions sid ⟨d, none⟩, st.histories⟩
  | some e => ⟨setA st.sessions sid ⟨hsetMerge e.hash d, e.ttl⟩, st.histories⟩

/-- Effect of `redis.expire(f"session:{sid}", t)`: refresh the ttl of an
existing key; a no-op on an absent key. -/
def expireSession (st : Store) (sid : String) (t : Nat) : Store :=
  match lookupA st.sessions sid with
  | none => st
  | some e => ⟨setA st.sessions sid ⟨e.hash, some t⟩, st.histories⟩

/-- Effect of `redis.hget(f"session:{sid}", "browser_id")`: `None` when the
key or the field is absent. -/
def hgetBrowserId (st : Store) (sid : String) : Option String :=
  match lookupA st.sessions sid with
  | none => none
  | some e => e.hash.browser_id

/-- Effect of `redis.exists(f"session:{sid}")`. -/
def sessionExists (st : Store) (sid : String) : Bool :=
  (lookupA st.sessions sid).isSome

/-- Effect of `redis.rpush(f"history:{sid}", json.dumps(item))` (the JSON
round-trip is the identity on the entry): append to an existing list key, or
create it (with no ttl) when absent. -/
def rpushHistory (st : Store) (sid : String) (item : HistoryItem) : Store :=
  match lookupA st.histories sid with
  | none => ⟨st.sessions, setA st.histories sid ⟨[item], none⟩⟩
  | some h => ⟨st.sessions, setA st.histories sid ⟨h.items ++ [item], h.ttl⟩⟩

/-- Effect of `redis.expire(f"history:{sid}", t)`. -/
def expireHistory (st : Store) (sid : String) (t : Nat) : Store :=
  match lookupA st.histories sid with
  | none => st
  | some h => ⟨st.sessions, setA st.histories sid ⟨h.items, some t⟩⟩

/-- Stored history list of a session; `lrange` on an absent key yields `[]`. -/
def histItems (st : Store) (sid : String) : List HistoryItem :=
  match lookupA st.histories sid with
  | none => []
  | some h => h.items

/-- Effect of `redis.lrange(key, -n, -1)` for `n > 0`: the last `n` elements
(the whole list when `n` exceeds its length). -/
def listLastN {A : Type} (l : List A) (n : Nat) : List A :=
  l.drop (l.length - n)

/-! ### SessionManager operations (`session_manager.py`) -/

/-- Translation of `SessionManager.create_session`: mint a session id, `hset`
the four fields (the dict literal evaluates `now()` for `created_at`, then
`now()` again for `last_active`, then `uuid4()` for `browser_id`), then
`expire` the key. -/
def create_session (st : Store) (env : Env) : String × Store × Env :=
  let p0 := envUuid env
  let sid := p0.1
  let p1 := envNow p0.2
  let t0 := p1.1
  let p2 := envNow p1.2
  let t1 := p2.1
  let p3 := envUuid p2.2
  let bid := p3.1
  let st1 := hsetSession st sid ⟨some t0, some t1, some "", some bid⟩
  (sid, expireSession st1 sid SESSION_TIMEOUT, p3.2)

/-- Translation of `SessionManager.get_session` (the FastAPI dependency
resolving the `X-Session-ID` header): a truthy presented id whose key exists
gets its `last_active` `hset` and its expiry refreshed and is returned
unchanged; every other case falls through to `create_session`. -/
def get_session (st : Store) (env : Env) (presented : Option String) :
    String × Store × Env :=
  match presented with
  | some sid =>
    -- `if session_id:` (truthiness) nested with `if self.redis.exists(...)`
    if sid ≠ "" ∧ sessionExists st sid = true then
      let p := envNow env
      (sid, expireSession (hsetSession st sid ⟨none, some p.1, none, none⟩) sid
        SESSION_TIMEOUT, p.2)
    else create_session st env
  | none => create_session st env

/-- Error payload of `fastapi.HTTPException(status_code, detail)`. -/
structure HttpErr where
  status : Nat
  detail : String
  deriving Repr, DecidableEq

/-- Translation of `SessionManager.get_session_data`: `hgetall` yields an
empty mapping exactly when the key is absent, in which case a 404 is raised. -/
def get_session_data (st : Store) (sid : String) : Except HttpErr SessionHash :=
  match lookupA st.sessions sid with
  | none => .error ⟨404, "Session not found"⟩
  | some e => .ok e.hash

/-- Translation of `SessionManager.update_session`: `expire` first (a no-op
when the key is absent), then `hset` the mapping (which creates the key when
absent).  There is no existence check and nothing is ever raised. -/
def update_session (st : Store) (sid : String) (data : SessionHash) : Store :=
  hsetSession (expireSession st sid SESSION_TIMEOUT) sid data

/-- Translation of `SessionManager.add_history`: stamp the entry with
`datetime.now()`, `rpush` it, then `expire` the history key. -/
def add_history (st : Store) (env : Env) (sid : String) (item : HistoryItem) :
    Store × Env :=
  let p := envNow env
  let stamped := { item with timestamp := some p.1 }
  (expireHistory (rpushHistory st sid stamped) sid SESSION_TIMEOUT, p.2)

/-- Translation of `SessionManager.get_history`: `lrange(key, -limit, -1)`
when `limit > 0`, else `lrange(key, 0, -1)`; an absent key yields `[]`. -/
def get_history (st : Store) (sid : String) (limit : Int) : List HistoryItem :=
  let items := histItems st sid
  if 0 < limit then listLastN items limit.toNat else items

/-- Translation of `SessionManager.get_browser`: read the record's
`browser_id`; when it is falsy (`None` from an absent record/field, or `""`)
or has no live pool entry, construct a fresh `Browser` (the counter supplies
its identity) and insert it under that key — possibly the `None` key — then
return the pool entry under the key.  The `config._force_keep_browser_alive`
override has no observable effect in this model. -/
def get_browser (sm : SM) (sid : String) : Nat × SM :=
  let bid := hgetBrowserId sm.store sid
  let falsy : Bool := match bid with | none => true | some s => s == ""
  if falsy || (lookupA sm.browsers bid).isNone then
    let b := sm.nextBrowser
    (b, ⟨sm.store, setA sm.browsers bid b, sm.nextBrowser + 1⟩)
  else
    ((lookupA sm.browsers bid).getD 0, sm)

/-- A sequence of `n` `get_browser` calls for the same session id.
`get_browser` contains no `await` (the redis client is synchronous and the
`Browser` constructor is synchronous), so under the single event loop each
call runs atomically and `n` concurrent calls execute as `n` consecutive
calls in some order; for a fixed session id that order is this iteration. -/
def acquireN (sm : SM) (sid : String) : Nat → List Nat × SM
  | 0 => ([], sm)
  | n + 1 =>
    let p := get_browser sm sid
    let q := acquireN p.2 sid n
    (p.1 :: q.1, q.2)

/-- One iteration of the `clear_inactive_sessions` loop body for one scanned
key: skip when the key or its `last_active` field is gone; when the session
is idle past the timeout, pop-and-close its pool browser (if any) and delete
its session and history keys. -/
def clearStep (now : Nat) (sm : SM) (sid : String) : SM :=
  match lookupA sm.store.sessions sid with
  | none => sm
  | some e =>
    match e.hash.last_active with
    | none => sm
    | some la =>
      if SESSION_TIMEOUT < now - la then
        let bid := e.hash.browser_id
        let pool :=
          if (lookupA sm.browsers bid).isSome then delA sm.browsers bid
          else sm.browsers
        ⟨⟨delA sm.store.sessions sid, delA sm.store.histories sid⟩, pool,
          sm.nextBrowser⟩
      else sm

/-- Translation of `SessionManager.clear_inactive_sessions`: iterate over the
snapshot of `session:*` keys, re-reading each key's fields from the live
store (`datetime.now()` is modelled as one reading for the pass). -/
def clear_inactive_sessions (now : Nat) (sm : SM) : SM :=
  (sm.store.sessions.map Prod.fst).foldl (clearStep now) sm

/-! ### Task pipeline (`api.py`)

The execution record produced by `agent.run()` is inspected duck-typed
(`hasattr` probing); an absent attribute is modelled by `none`.  The opaque
collaborators (the RAGFlow chat service, the LLM refinement call, the
automation run, the clean-screenshot capture) are modelled by their outcomes,
passed in as `Except` parameters; `.error` means the corresponding `await`
raised. -/

/-- One element of `last_history.result`: `extracted_content` is `none` when
the attribute is absent or `None`. -/
structure StepResultM where
  extracted_content : Option String
  deriving Repr, DecidableEq

/-- The `state` attribute of a history step: `url`/`screenshot` are `none`
when the attribute is absent or `None`. -/
structure StepState where
  url : Option String
  screenshot : Option String
  deriving Repr, DecidableEq

/-- One step of the execution record.  `evalText` is `none` when the step has
no truthy `eval` attribute, and `some t` when it does (`t` is
`getattr(hist.eval, 'text', '')`, so a missing `text` yields `some ""`). -/
structure HistStep where
  state : Option StepState
  result : Option (List StepResultM)
  evalText : Option String
  deriving Repr, DecidableEq

/-- The value returned by `agent.run()`. -/
structure AgentHistory where
  history : List HistStep
  deriving Repr, DecidableEq

/-- Decides whether `needle` occurs as a contiguous substring of `hay`. -/
def hasSubstr (needle : List Char) : List Char → Bool
  | [] => needle.isPrefixOf ([] : List Char)
  | c :: rest => needle.isPrefixOf (c :: rest) || hasSubstr needle rest

/-- Character list of `t.lower()` (per-character lowercasing). -/
def lowerChars (t : String) : List Char :=
  t.data.map Char.toLower

/-- Translation of `'captcha' in eval_text.lower() or 'recaptcha' in
eval_text.lower()`. -/
def containsCaptcha (t : String) : Bool :=
  hasSubstr "captcha".data (lowerChars t) || hasSubstr "recaptcha".data (lowerChars t)

/-- Guard of the CAPTCHA loop body: `hasattr(hist, 'eval') and hist.eval`
followed by `if eval_text and (...)`. -/
def stepHasCaptcha (s : HistStep) : Bool :=
  match s.evalText with
  | none => false
  | some t => !(t == "") && containsCaptcha t

def CAPTCHA_NOTICE : String := "Note: A CAPTCHA was detected during the task. "

/-- The `for hist in history.history: ... break` loop of `execute_task`:
prefix the message at the first step whose evaluation text mentions a
captcha, then stop scanning. -/
def captcha_scan : List HistStep → String → String
  | [], msg => msg
  | s :: rest, msg =>
    if stepHasCaptcha s then CAPTCHA_NOTICE ++ msg
    else captcha_scan rest msg

/-- The base result message of `execute_task` before the CAPTCHA scan: the
last step's last result's truthy `extracted_content`, defaulting to
`"Task execution completed"`. -/
def base_message (h : List HistStep) : String :=
  match h.getLast? with
  | none => "Task execution completed"
  | some last =>
    match last.result with
    | none => "Task execution completed"
    | some rs =>
      -- `last_history.result and len(last_history.result) > 0`
      if rs.length > 0 then
        match rs.getLast? with
        | none => "Task execution completed"
        | some lr =>
          match lr.extracted_content with
          | none => "Task execution completed"
          | some c => if c ≠ "" then c else "Task execution completed"
      else "Task execution completed"

/-- The result message `execute_task` puts in the response: the default for an
empty execution record, otherwise the base message run through the CAPTCHA
scan (lines 271-301 of `api.py`). -/
def result_message (h : List HistStep) : String :=
  match h with
  | [] => "Task execution completed"
  | _ :: _ => captcha_scan h (base_message h)

/-- An exception value as seen by the catch-all `except Exception` handler:
either a `fastapi.HTTPException` or any other exception, carrying what
`str(e)` yields (`"{status_code}: {detail}"` for `HTTPException`). -/
inductive Exc where
  | http (e : HttpErr)
  | other (msg : String)
  deriving Repr, DecidableEq

def excStr : Exc → String
  | .http e => toString e.status ++ ": " ++ e.detail
  | .other m => m

/-- The catch-all handler of `execute_task`: re-raise any exception as
`HTTPException(500, f"Error executing task: {str(e)}")`. -/
def wrapTaskError (e : Exc) : HttpErr :=
  ⟨500, "Error executing task: " ++ excStr e⟩

/-- Translation of `process_user_task`: return the refinement capability's
content on success; on any failure raise
`HTTPException(500, f"Error processing task: {str(e)}")`.  The constructed
prompt (from the task text and the session's current url) only feeds the
opaque capability, whose outcome is the `llm` parameter. -/
def process_user_task (taskText : String) (current_url : Option String)
    (llm : Except String String) : Except Exc String :=
  match taskText, current_url, llm with
  | _, _, .ok content => .ok content
  | _, _, .error e => .error (.http ⟨500, "Error processing task: " ++ e⟩)

/-- The decoded payload of a `call_ragflow_api` result:
`resp['data']['session_id']` and `resp['data']['answer']` (`none` when the
field is absent or `null`). -/
structure RagData where
  session_id : Option String
  answer : Option String
  deriving Repr, DecidableEq

/-- The response model of `POST /api/execute-task`. -/
structure TaskResponseM where
  status : String
  message : String
  screenshot : Option String
  session_id : String
  current_url : Option String
  ragflow_session_id : Option String
  deriving Repr, DecidableEq

/-- Body of `execute_task` from the RAGFlow stage on, once the session id
`sid` for this request is settled (after the optional `new_session`
creation).  `rfNew` is the outcome of the sessionless RAGFlow call, `rfAns`
of the session-bound one, `llm` of the refinement call, `agentRun` of
`agent.run()`, `cleanShot` of `get_clean_screenshot` (only consulted when a
screenshot is requested).  The deferred
`background_tasks.add_task(add_history, ...)` runs after the response is sent
and cannot affect it, so it is not part of the returned state. -/
def execute_task_main (sm1 : SM) (env1 : Env) (sid : String) (task : String)
    (include_screenshot : Bool) (ragflow_session_id : Option String)
    (rfNew rfAns : Except Exc RagData) (llm : Except String String)
    (agentRun : Except String AgentHistory) (cleanShot : Except String String) :
    Except Exc TaskResponseM × SM × Env :=
  -- `if not request.ragflow_session_id:` (truthiness; branches swapped here)
  let rag : Except Exc (RagData × Option String) :=
    if optTruthy ragflow_session_id then
      match rfAns with
      | .error e => .error e
      | .ok d2 => .ok (d2, ragflow_session_id)
    else
      match rfNew with
      | .error e => .error e
      | .ok d1 =>
        if optTruthy d1.session_id then
          match rfAns with
          | .error e => .error e
          | .ok d2 => .ok (d2, d1.session_id)
        else .error (.http ⟨500, "Failed to get RAGFlow session ID"⟩)
  match rag with
  | .error e => (.error e, sm1, env1)
  | .ok dpair =>
    -- `if not ragflow_response.get('data', {}).get('answer'):`
    if optTruthy dpair.1.answer then
      let ragflow_answer := dpair.1.answer.getD ""
      let rsid := dpair.2
      -- `session_data = await session_manager.get_session_data(session_id)`
      match get_session_data sm1.store sid with
      | .error he => (.error (.http he), sm1, env1)
      | .ok sdata =>
        let current_url := sdata.current_url
        match process_user_task
            ("Original task: " ++ task ++ "\nRAGFlow understanding: " ++ ragflow_answer)
            current_url llm with
        | .error e => (.error e, sm1, env1)
        | .ok _detailed_task =>
          -- `browser = await session_manager.get_browser(session_id, browser_config)`
          let gb := get_browser sm1 sid
          let sm2 := gb.2
          -- `history = await agent.run()`
          match agentRun with
          | .error e => (.error (.other e), sm2, env1)
          | .ok history =>
            -- extraction: final url, screenshot, result message
            let lastStep := history.history.getLast?
            let new_url : Option String :=
              match lastStep with
              | none => none
              | some last =>
                match last.state with
                | none => none
                | some stt => stt.url
            let sm3 : SM :=
              match new_url with
              | some u =>
                ⟨update_session sm2.store sid ⟨none, none, some u, none⟩,
                  sm2.browsers, sm2.nextBrowser⟩
              | none => sm2
            let screenshot : Option String :=
              match lastStep with
              | none => none
              | some last =>
                if include_screenshot then
                  match cleanShot with
                  | .ok s => some s
                  | .error _ =>
                    match last.state with
                    | none => none
                    | some stt =>
                      if optTruthy stt.screenshot then stt.screenshot else none
                else none
            (.ok ⟨"success", result_message history.history, screenshot, sid,
              new_url, rsid⟩, sm3, env1)
    else (.error (.http ⟨500, "No valid response from RAGFlow"⟩), sm1, env1)

/-- Body of `execute_task` inside its `try` block, after the `Depends`
dependency has resolved `sid_dep`.  `rfNew` is the outcome of the sessionless
RAGFlow call, `rfAns` of the session-bound one, `llm` of the refinement call,
`agentRun` of `agent.run()`, `cleanShot` of `get_clean_screenshot` (only
consulted when a screenshot is requested).  The deferred
`background_tasks.add_task(add_history, ...)` runs after the response is sent
and cannot affect it, so it is not part of the returned state. -/
def execute_task_try (sm : SM) (env : Env) (sid_dep : String) (task : String)
    (include_screenshot : Bool) (new_session : Bool)
    (ragflow_session_id : Option String) (rfNew rfAns : Except Exc RagData)
    (llm : Except String String) (agentRun : Except String AgentHistory)
    (cleanShot : Except String String) :
    Except Exc TaskResponseM × SM × Env :=
  -- `if request.new_session: session_id = await session_manager.create_session()`
  let p1 :=
    if new_session then
      let c := create_session sm.store env
      (c.1, (⟨c.2.1, sm.browsers, sm.nextBrowser⟩ : SM), c.2.2)
    else (sid_dep, sm, env)
  execute_task_main p1.2.1 p1.2.2 p1.1 task include_screenshot
    ragflow_session_id rfNew rfAns llm agentRun cleanShot

/-- Translation of the `POST /api/execute-task` handler: the
`Depends(session_manager.get_session)` dependency resolves the `X-Session-ID`
header first, then the `try` body runs, and the catch-all converts any raised
exception into `HTTPException(500, ...)`.  Store writes made before a raise
persist. -/
def execute_task (sm : SM) (env : Env) (headerSessionId : Option String)
    (task : String) (include_screenshot : Bool) (new_session : Bool)
    (ragflow_session_id : Option String) (rfNew rfAns : Except Exc RagData)
    (llm : Except String String) (agentRun : Except String AgentHistory)
    (cleanShot : Except String String) :
    Except HttpErr TaskResponseM × SM × Env :=
  let dep := get_session sm.store env headerSessionId
  let sm0 : SM := ⟨dep.2.1, sm.browsers, sm.nextBrowser⟩
  let inner := execute_task_try sm0 dep.2.2 dep.1 task include_screenshot
    new_session ragflow_session_id rfNew rfAns llm agentRun cleanShot
  match inner.1 with
  | .ok resp => (.ok resp, inner.2.1, inner.2.2)
  | .error e => (.error (wrapTaskError e), inner.2.1, inner.2.2)

/-! ### Helper lemmas -/

theorem lookupA_delA_of_none {K V : Type} [DecidableEq K] {l : List (K × V)} {k k2 : K}
    (h : lookupA l k2 = none) : lookupA (delA l k) k2 = none := by
  by_cases hk : k2 = k
  · subst hk
    exact lookupA_delA_self l k2
  · rw [lookupA_delA_ne hk]
    exact h

/-- Lookup of the touched key after the `hset`-then-`expire` composition. -/
theorem hset_expire_lookup (st : Store) (sid : String) (d : SessionHash) (t : Nat) :
    lookupA (expireSession (hsetSession st sid d) sid t).sessions sid =
      some ⟨(match lookupA st.sessions sid with
             | none => d
             | some e => hsetMerge e.hash d), some t⟩ := by
  cases h : lookupA st.sessions sid with
  | none => simp [hsetSession, h, expireSession, lookupA_setA_self]
  | some e => simp [hsetSession, h, expireSession, lookupA_setA_self]

/-- Other keys are untouched by the `hset`-then-`expire` composition. -/
theorem hset_expire_lookup_other (st : Store) (sid k : String) (d : SessionHash)
    (t : Nat) (hk : k ≠ sid) :
    lookupA (expireSession (hsetSession st sid d) sid t).sessions k =
      lookupA st.sessions k := by
  cases h : lookupA st.sessions sid with
  | none =>
    simp [hsetSession, h, expireSession, lookupA_setA_self, lookupA_setA_ne hk]
  | some e =>
    simp [hsetSession, h, expireSession, lookupA_setA_self, lookupA_setA_ne hk]

/-- Histories are untouched by the `hset`-then-`expire` composition. -/
theorem hset_expire_hist (st : Store) (sid : String) (d : SessionHash) (t : Nat) :
    (expireSession (hsetSession st sid d) sid t).histories = st.histories := by
  cases h : lookupA st.sessions sid with
  | none => simp [hsetSession, h, expireSession, lookupA_setA_self]
  | some e => simp [hsetSession, h, expireSession, lookupA_setA_self]

/-- Merging a mapping in which every field is given overwrites the hash. -/
theorem hsetMerge_full (old : SessionHash) (a b : Nat) (c d : String) :
    hsetMerge old ⟨some a, some b, some c, some d⟩ = ⟨some a, some b, some c, some d⟩ :=
  rfl

/-- Unfolding of `create_session` into the two redis primitives and the
supplies it consumes. -/
theorem create_session_eq (st : Store) (env : Env) :
    create_session st env =
      (env.uuids.headD "",
        expireSession (hsetSession st (env.uuids.headD "")
          ⟨some (env.clock.headD 0), some (env.clock.tail.headD 0), some "",
            some (env.uuids.tail.headD "")⟩) (env.uuids.headD "") SESSION_TIMEOUT,
        ⟨env.clock.tail.tail, env.uuids.tail.tail⟩) := by
  simp only [create_session, envUuid, envNow]

/-- Unfolding of the refresh branch of `get_session` (truthy presented id
whose key exists). -/
theorem get_session_refresh_eq (st : Store) (env : Env) (sid : String)
    (hsid : sid ≠ "") (hex : sessionExists st sid = true) :
    get_session st env (some sid) =
      (sid,
        expireSession (hsetSession st sid ⟨none, some (env.clock.headD 0), none, none⟩)
          sid SESSION_TIMEOUT,
        ⟨env.clock.tail, env.uuids⟩) := by
  simp only [get_session, envNow]
  rw [if_pos ⟨hsid, hex⟩]

/-- Every non-refresh input of `get_session` falls through to
`create_session`. -/
theorem get_session_miss_eq (st : Store) (env : Env) (p : Option String)
    (h : ∀ sid, p = some sid → sid = "" ∨ sessionExists st sid = false) :
    get_session st env p = create_session st env := by
  cases p with
  | none => rfl
  | some sid =>
    have hcond : ¬(sid ≠ "" ∧ sessionExists st sid = true) := by
      rcases h sid rfl with h1 | h1
      · intro hc
        exact hc.1 h1
      · intro hc
        rw [h1] at hc
        exact Bool.false_ne_true hc.2
    simp only [get_session]
    rw [if_neg hcond]

/-- Record content and minted id of `create_session`: the result id is the
first uuid drawn, and (whether or not the minted id collides with an existing
key — `hset` overwrites every field either way) the stored hash holds the two
successive clock readings, an empty url, and the second uuid, with a fresh
ttl. -/
theorem create_session_lookup (st : Store) (env : Env) :
    (create_session st env).1 = env.uuids.headD "" ∧
    lookupA (create_session st env).2.1.sessions (env.uuids.headD "") =
      some ⟨⟨some (env.clock.headD 0), some (env.clock.tail.headD 0), some "",
        some (env.uuids.tail.headD "")⟩, some SESSION_TIMEOUT⟩ := by
  simp only [create_session_eq]
  refine ⟨trivial, ?_⟩
  rw [hset_expire_lookup]
  cases h : lookupA st.sessions (env.uuids.headD "") with
  | none => rfl
  | some e => rfl

theorem create_session_exists (st : Store) (env : Env) :
    ∃ e, lookupA (create_session st env).2.1.sessions (create_session st env).1 =
      some e := by
  have h1 := (create_session_lookup st env).1
  have h2 := (create_session_lookup st env).2
  rw [h1]
  exact ⟨_, h2⟩

/-- The id resolved by the `get_session` dependency always has a live record
afterwards: either the presented record was touched, or one was created. -/
theorem get_session_exists (st : Store) (env : Env) (p : Option String) :
    ∃ e, lookupA (get_session st env p).2.1.sessions (get_session st env p).1 =
      some e := by
  by_cases hc : ∀ sid, p = some sid → sid = "" ∨ sessionExists st sid = false
  · rw [get_session_miss_eq st env p hc]
    exact create_session_exists st env
  · push_neg at hc
    obtain ⟨sid, hp, hsid, hexb⟩ := hc
    subst hp
    have hex : sessionExists st sid = true := by
      revert hexb
      cases sessionExists st sid <;> simp
    simp only [get_session_refresh_eq st env sid hsid hex, hset_expire_lookup]
    exact ⟨_, rfl⟩

/-! ### Claims -/

/-- C9: for every session id with no stored history — including one that was
never created — `get_history` returns the empty sequence (it is a total
function, so it never raises), while `get_session_data` on an absent session
raises `HTTPException(404, "Session not found")`. -/
theorem c9_get_history_absent_total (st : Store) (sid : String) (limit : Int)
    (hh : lookupA st.histories sid = none) (hs : lookupA st.sessions sid = none) :
    get_history st sid limit = [] ∧
    get_session_data st sid = .error ⟨404, "Session not found"⟩ := by
  constructor
  · simp [get_history, histItems, hh, listLastN]
  · simp [get_session_data, hs]

theorem c9_get_history_absent_total_witness :
    get_history ⟨[], []⟩ "ghost" 3 = [] ∧
    get_session_data ⟨[], []⟩ "ghost" = .error ⟨404, "Session not found"⟩ :=
  c9_get_history_absent_total ⟨[], []⟩ "ghost" 3 rfl rfl

/-- C3 counterexample: `update_session` on a session id with no existing
record does not fail with `NotFound` — it is total — and it does write: on an
empty store it creates a record holding exactly the given fields (with no
expiry, since the `expire` call precedes the write and is a no-op on a
missing key). -/
theorem c3_update_absent_writes_cex :
    lookupA (update_session ⟨[], []⟩ "ghost"
        ⟨none, none, some "http://x", none⟩).sessions "ghost" =
      some ⟨⟨none, none, some "http://x", none⟩, none⟩ := by
  rfl

/-- C3 amended: `update_session` never fails.  For an absent session id it
creates the record with exactly the given fields and no expiry set; for an
existing record it refreshes the expiry to the idle timeout and merges the
given fields in.  Other sessions and all histories are untouched. -/
theorem c3_update_session_spec (st : Store) (sid : String) (data : SessionHash) :
    (lookupA st.sessions sid = none →
      lookupA (update_session st sid data).sessions sid = some ⟨data, none⟩) ∧
    (∀ e, lookupA st.sessions sid = some e →
      lookupA (update_session st sid data).sessions sid =
        some ⟨hsetMerge e.hash data, some SESSION_TIMEOUT⟩) ∧
    (∀ k, k ≠ sid →
      lookupA (update_session st sid data).sessions k = lookupA st.sessions k) ∧
    (update_session st sid data).histories = st.histories := by
  refine ⟨?_, ?_, ?_, ?_⟩
  · intro h
    simp [update_session, expireSession, hsetSession, h, lookupA_setA_self]
  · intro e he
    simp [update_session, expireSession, hsetSession, he, lookupA_setA_self]
  · intro k hk
    cases h : lookupA st.sessions sid with
    | none =>
      simp [update_session, expireSession, hsetSession, h, lookupA_setA_ne hk]
    | some e =>
      simp [update_session, expireSession, hsetSession, h, lookupA_setA_self,
        lookupA_setA_ne hk]
  · cases h : lookupA st.sessions sid with
    | none => simp [update_session, expireSession, hsetSession, h]
    | some e =>
      simp [update_session, expireSession, hsetSession, h, lookupA_setA_self]

theorem c3_update_session_spec_witness :
    lookupA (update_session ⟨[], []⟩ "g2" ⟨none, some 9, none, none⟩).sessions "g2" =
      some ⟨⟨none, some 9, none, none⟩, none⟩ ∧
    lookupA (update_session ⟨[("s1", ⟨⟨some 1, some 1, some "", some "b1"⟩, some 1800⟩)], []⟩
        "s1" ⟨none, none, some "http://y", none⟩).sessions "s1" =
      some ⟨hsetMerge ⟨some 1, some 1, some "", some "b1"⟩
        ⟨none, none, some "http://y", none⟩, some SESSION_TIMEOUT⟩ :=
  ⟨(c3_update_session_spec ⟨[], []⟩ "g2" ⟨none, some 9, none, none⟩).1 rfl,
   (c3_update_session_spec _ "s1" ⟨none, none, some "http://y", none⟩).2.1
     ⟨⟨some 1, some 1, some "", some "b1"⟩, some 1800⟩ rfl⟩

/-- C5 counterexample: `create_session` evaluates `datetime.now()` twice, so
when the clock advances between the two calls (here from 5 to 7) the freshly
created record has `created_at ≠ last_active`, against the claim that they
are equal. -/
theorem c5_create_timestamps_differ_cex :
    (get_session_data (create_session ⟨[], []⟩ ⟨[5, 7], ["s1", "b1"]⟩).2.1
        (create_session ⟨[], []⟩ ⟨[5, 7], ["s1", "b1"]⟩).1).toOption.map
      SessionHash.created_at = some (some 5) ∧
    (get_session_data (create_session ⟨[], []⟩ ⟨[5, 7], ["s1", "b1"]⟩).2.1
        (create_session ⟨[], []⟩ ⟨[5, 7], ["s1", "b1"]⟩).1).toOption.map
      SessionHash.last_active = some (some 7) ∧
    (some (some 5) : Option (Option Nat)) ≠ some (some 7) :=
  ⟨rfl, rfl, by decide⟩

/-- C5 amended: `create_session` immediately followed by `get_session_data`
on the returned id yields a record with empty `current_url`, a non-empty
`browser_id` (given that the minted uuid is non-empty, as `uuid4` strings
are), and `created_at`/`last_active` equal to the first and second clock
readings taken during creation — so they are equal exactly when the clock
does not advance between the two `datetime.now()` calls, which the code does
not guarantee. -/
theorem c5_create_then_getData (st : Store) (env : Env)
    (hbid : env.uuids.tail.headD "" ≠ "") :
    get_session_data (create_session st env).2.1 (create_session st env).1 =
      .ok ⟨some (env.clock.headD 0), some (env.clock.tail.headD 0), some "",
        some (env.uuids.tail.headD "")⟩ ∧
    optTruthy (some (env.uuids.tail.headD "")) = true ∧
    (((some (env.clock.headD 0) : Option Nat) = some (env.clock.tail.headD 0)) ↔
      env.clock.headD 0 = env.clock.tail.headD 0) := by
  refine ⟨?_, ?_, by simp⟩
  · rw [(create_session_lookup st env).1]
    have h2 := (create_session_lookup st env).2
    simp only [get_session_data, h2]
  · have hb : (env.uuids.tail.headD "" == "") = false := beq_eq_false_iff_ne.mpr hbid
    simp only [optTruthy, hb, Bool.not_false]

theorem c5_create_then_getData_witness :
    get_session_data (create_session ⟨[], []⟩ ⟨[3, 3], ["s1", "b1"]⟩).2.1
        (create_session ⟨[], []⟩ ⟨[3, 3], ["s1", "b1"]⟩).1 =
      .ok ⟨some 3, some 3, some "", some "b1"⟩ ∧
    optTruthy (some "b1") = true ∧
    (((some 3 : Option Nat) = some 3) ↔ (3 : Nat) = 3) :=
  c5_create_then_getData ⟨[], []⟩ ⟨[3, 3], ["s1", "b1"]⟩ (by decide)

/-- C10 counterexample: two consecutive `get_browser` calls for record-less
session ids (starting from an empty store, empty pool, construction counter
0) construct two browsers and return distinct handles (0, then 1): the
second record-less caller does not receive the first caller's browser — each
such call constructs its own and overwrites the pool entry under the `None`
key. -/
theorem c10_get_browser_recordless_cex :
    (get_browser (⟨⟨[], []⟩, [], 0⟩ : SM) "sA").1 = 0 ∧
    (get_browser (get_browser (⟨⟨[], []⟩, [], 0⟩ : SM) "sA").2 "sB").1 = 1 ∧
    (0 : Nat) ≠ 1 :=
  ⟨rfl, rfl, by decide⟩

/-- C10 amended: for a session id whose record (or `browser_id` field) is
absent, `get_browser` does not raise `NotFound` (it is total): `not
browser_id` is truthy on every such call, so it constructs a fresh browser
every time, stores it in the pool under the `None` key (overwriting any
previous entry there), and returns the fresh browser — record-less callers
therefore each get their own new browser, not a shared one. -/
theorem c10_get_browser_recordless (sm : SM) (sid : String)
    (h : hgetBrowserId sm.store sid = none) :
    get_browser sm sid =
      (sm.nextBrowser,
        ⟨sm.store, setA sm.browsers none sm.nextBrowser, sm.nextBrowser + 1⟩) := by
  simp [get_browser, h]

theorem c10_get_browser_recordless_witness :
    get_browser (⟨⟨[], []⟩, [(none, 7)], 9⟩ : SM) "ghost" =
      (9, ⟨⟨[], []⟩, setA [(none, 7)] none 9, 9 + 1⟩) :=
  c10_get_browser_recordless ⟨⟨[], []⟩, [(none, 7)], 9⟩ "ghost" rfl

/-- Constructing call of `get_browser`: a live record with a non-empty
`browser_id` that has no pool entry yet constructs one browser. -/
theorem get_browser_construct (sm : SM) (sid b : String)
    (hrec : hgetBrowserId sm.store sid = some b) (hb : b ≠ "")
    (hpool : lookupA sm.browsers (some b) = none) :
    get_browser sm sid =
      (sm.nextBrowser, ⟨sm.store, setA sm.browsers (some b) sm.nextBrowser,
        sm.nextBrowser + 1⟩) := by
  simp [get_browser, hrec, hb, hpool]

/-- Pool-hit call of `get_browser`: a live record with a non-empty
`browser_id` whose pool entry exists returns that entry and changes nothing. -/
theorem get_browser_hit (sm : SM) (sid b : String) (v : Nat)
    (hrec : hgetBrowserId sm.store sid = some b) (hb : b ≠ "")
    (hpool : lookupA sm.browsers (some b) = some v) :
    get_browser sm sid = (v, sm) := by
  simp [get_browser, hrec, hb, hpool]

theorem acquireN_hit (sid b : String) (v : Nat) :
    ∀ (n : Nat) (sm : SM), hgetBrowserId sm.store sid = some b → b ≠ "" →
      lookupA sm.browsers (some b) = some v →
      acquireN sm sid n = (List.replicate n v, sm) := by
  intro n
  induction n with
  | zero =>
    intro sm h1 h2 h3
    simp [acquireN]
  | succ m ih =>
    intro sm h1 h2 h3
    simp [acquireN, get_browser_hit sm sid b v h1 h2 h3, ih sm h1 h2 h3,
      List.replicate_succ]

/-- C1: `get_browser` contains no suspension point (its redis calls and the
`Browser` constructor are synchronous), so on the single event loop each call
runs atomically and N concurrent calls for the same session id execute as N
consecutive calls.  Starting from a live record whose (non-empty)
`browser_id` has no pool entry yet, N ≥ 1 such calls construct exactly one
browser (the construction counter rises by exactly 1) and every caller
receives that same browser. -/
theorem c1_acquire_idempotent (sm : SM) (sid b : String) (n : Nat)
    (hrec : hgetBrowserId sm.store sid = some b) (hb : b ≠ "")
    (hpool : lookupA sm.browsers (some b) = none) (hn : 1 ≤ n) :
    (acquireN sm sid n).1 = List.replicate n sm.nextBrowser ∧
    (acquireN sm sid n).2.nextBrowser = sm.nextBrowser + 1 := by
  obtain ⟨m, rfl⟩ : ∃ m, n = m + 1 := ⟨n - 1, by omega⟩
  have h1 := get_browser_construct sm sid b hrec hb hpool
  have hrec1 : hgetBrowserId
      (⟨sm.store, setA sm.browsers (some b) sm.nextBrowser,
        sm.nextBrowser + 1⟩ : SM).store sid = some b := hrec
  have hpool1 : lookupA
      (⟨sm.store, setA sm.browsers (some b) sm.nextBrowser,
        sm.nextBrowser + 1⟩ : SM).browsers (some b) = some sm.nextBrowser :=
    lookupA_setA_self sm.browsers (some b) sm.nextBrowser
  have h2 := acquireN_hit sid b sm.nextBrowser m _ hrec1 hb hpool1
  constructor
  · simp [acquireN, h1, h2, List.replicate_succ]
  · simp [acquireN, h1, h2]

/-- Iterated `add_history` calls for one session, threading store and
supplies in order. -/
def addAll (st : Store) (env : Env) (sid : String) : List HistoryItem → Store × Env
  | [] => (st, env)
  | i :: r =>
    let a := add_history st env sid i
    addAll a.1 a.2 sid r

theorem histItems_add (st : Store) (env : Env) (sid : String) (item : HistoryItem) :
    histItems (add_history st env sid item).1 sid =
      histItems st sid ++ [{ item with timestamp := some (env.clock.headD 0) }] := by
  cases h : lookupA st.histories sid with
  | none =>
    simp only [add_history, envNow, rpushHistory, h, expireHistory,
      lookupA_setA_self, histItems, List.nil_append]
  | some he =>
    simp only [add_history, envNow, rpushHistory, h, expireHistory,
      lookupA_setA_self, histItems]

theorem add_history_env (st : Store) (env : Env) (sid : String) (item : HistoryItem) :
    (add_history st env sid item).2 = ⟨env.clock.tail, env.uuids⟩ :=
  rfl

/-- C6: appending E1 then E2 then E3 to a session with no stored history and
reading with no limit (`limit = -1`) returns the three (timestamped) entries
in append order; reading with `limit = 2` returns the last two in
chronological order. -/
theorem c6_add_history_order (st : Store) (env : Env) (sid : String)
    (e1 e2 e3 : HistoryItem) (h0 : histItems st sid = []) :
    get_history (addAll st env sid [e1, e2, e3]).1 sid (-1) =
      [{ e1 with timestamp := some (env.clock.headD 0) },
       { e2 with timestamp := some (env.clock.tail.headD 0) },
       { e3 with timestamp := some (env.clock.tail.tail.headD 0) }] ∧
    get_history (addAll st env sid [e1, e2, e3]).1 sid 2 =
      [{ e2 with timestamp := some (env.clock.tail.headD 0) },
       { e3 with timestamp := some (env.clock.tail.tail.headD 0) }] := by
  have hitems : histItems (addAll st env sid [e1, e2, e3]).1 sid =
      [{ e1 with timestamp := some (env.clock.headD 0) },
       { e2 with timestamp := some (env.clock.tail.headD 0) },
       { e3 with timestamp := some (env.clock.tail.tail.headD 0) }] := by
    simp only [addAll, histItems_add, add_history_env, h0, List.nil_append]
    rfl
  constructor
  · simp only [get_history, hitems]
    rfl
  · simp only [get_history, hitems]
    rfl

theorem c6_add_history_order_witness :
    get_history (addAll ⟨[], []⟩ ⟨[1, 2, 3], []⟩ "s1"
        [⟨"t1", "r1", "d1", "res1", none, none⟩,
         ⟨"t2", "r2", "d2", "res2", none, none⟩,
         ⟨"t3", "r3", "d3", "res3", none, none⟩]).1 "s1" (-1) =
      [⟨"t1", "r1", "d1", "res1", none, some 1⟩,
       ⟨"t2", "r2", "d2", "res2", none, some 2⟩,
       ⟨"t3", "r3", "d3", "res3", none, some 3⟩] ∧
    get_history (addAll ⟨[], []⟩ ⟨[1, 2, 3], []⟩ "s1"
        [⟨"t1", "r1", "d1", "res1", none, none⟩,
         ⟨"t2", "r2", "d2", "res2", none, none⟩,
         ⟨"t3", "r3", "d3", "res3", none, none⟩]).1 "s1" 2 =
      [⟨"t2", "r2", "d2", "res2", none, some 2⟩,
       ⟨"t3", "r3", "d3", "res3", none, some 3⟩] :=
  c6_add_history_order ⟨[], []⟩ ⟨[1, 2, 3], []⟩ "s1" _ _ _ rfl

theorem captcha_scan_pos (msg : String) :
    ∀ h : List HistStep, (∃ s ∈ h, stepHasCaptcha s = true) →
      captcha_scan h msg = CAPTCHA_NOTICE ++ msg := by
  intro h
  induction h with
  | nil =>
    intro hex
    simp at hex
  | cons s rest ih =>
    intro hex
    by_cases hs : stepHasCaptcha s = true
    · simp [captcha_scan, hs]
    · obtain ⟨x, hx, hpx⟩ := hex
      rcases List.mem_cons.mp hx with h1 | h2
      · exact absurd (h1 ▸ hpx) hs
      · simp [captcha_scan, hs, ih ⟨x, h2, hpx⟩]

theorem captcha_scan_neg (msg : String) :
    ∀ h : List HistStep, (∀ s ∈ h, stepHasCaptcha s = false) →
      captcha_scan h msg = msg := by
  intro h
  induction h with
  | nil =>
    intro _
    rfl
  | cons s rest ih =>
    intro hall
    have hs : stepHasCaptcha s = false := hall s (List.mem_cons_self s rest)
    simp [captcha_scan, hs, ih fun x hx => hall x (List.mem_cons_of_mem s hx)]

/-- C8: for every execution record, if some step's evaluation text contains
the substring "captcha" or "recaptcha" case-insensitively, the response
message is the base message prefixed with the CAPTCHA notice exactly once
(the scan stops at the first match); if no step's evaluation text contains
such a substring, the message is returned unprefixed. -/
theorem c8_captcha_message (h : List HistStep) :
    ((∃ s ∈ h, stepHasCaptcha s = true) →
      result_message h = CAPTCHA_NOTICE ++ base_message h) ∧
    ((∀ s ∈ h, stepHasCaptcha s = false) →
      result_message h = base_message h) := by
  constructor
  · intro hex
    cases h with
    | nil =>
      obtain ⟨x, hx, _⟩ := hex
      simp at hx
    | cons a t =>
      simpa [result_message] using captcha_scan_pos (base_message (a :: t)) (a :: t) hex
  · intro hall
    cases h with
    | nil => rfl
    | cons a t =>
      simpa [result_message] using captcha_scan_neg (base_message (a :: t)) (a :: t) hall

theorem c8_captcha_message_witness :
    result_message [⟨none, some [⟨some "done"⟩], some "ReCAPTCHA detected on page"⟩] =
      CAPTCHA_NOTICE ++
        base_message [⟨none, some [⟨some "done"⟩], some "ReCAPTCHA detected on page"⟩] ∧
    result_message [⟨none, some [⟨some "done"⟩], none⟩] =
      base_message [⟨none, some [⟨some "done"⟩], none⟩] :=
  ⟨(c8_captcha_message _).1
      ⟨⟨none, some [⟨some "done"⟩], some "ReCAPTCHA detected on page"⟩,
        List.mem_singleton.mpr rfl, by rfl⟩,
   (c8_captcha_message _).2 (by
      intro s hs
      rw [List.mem_singleton.mp hs]
      rfl)⟩

theorem c1_acquire_idempotent_witness :
    (acquireN ⟨⟨[("s1", ⟨⟨some 0, some 0, some "", some "b1"⟩, some 1800⟩)], []⟩,
        [], 0⟩ "s1" 3).1 = List.replicate 3 0 ∧
    (acquireN ⟨⟨[("s1", ⟨⟨some 0, some 0, some "", some "b1"⟩, some 1800⟩)], []⟩,
        [], 0⟩ "s1" 3).2.nextBrowser = 0 + 1 :=
  c1_acquire_idempotent _ "s1" "b1" 3 rfl (by decide) rfl (by omega)

/-- C2: `get_session` never fails (it is a total function): when a truthy
session id is presented and its record exists, the record's `last_active` is
set to the clock reading and its expiry refreshed to the idle timeout, all
other fields, sessions and histories are untouched, and the presented id is
returned unchanged; in every other case (no id presented, an empty header
value, or an absent/expired record) a fresh record is created and the newly
minted identifier returned. -/
theorem c2_get_session_spec (st : Store) (env : Env) (presented : Option String) :
    (∀ sid e, presented = some sid → sid ≠ "" → lookupA st.sessions sid = some e →
      (get_session st env presented).1 = sid ∧
      lookupA (get_session st env presented).2.1.sessions sid =
        some ⟨⟨e.hash.created_at, some (env.clock.headD 0), e.hash.current_url,
          e.hash.browser_id⟩, some SESSION_TIMEOUT⟩ ∧
      (∀ k, k ≠ sid →
        lookupA (get_session st env presented).2.1.sessions k =
          lookupA st.sessions k) ∧
      (get_session st env presented).2.1.histories = st.histories) ∧
    ((∀ sid, presented = some sid → sid = "" ∨ sessionExists st sid = false) →
      (get_session st env presented).1 = env.uuids.headD "" ∧
      lookupA (get_session st env presented).2.1.sessions (env.uuids.headD "") =
        some ⟨⟨some (env.clock.headD 0), some (env.clock.tail.headD 0), some "",
          some (env.uuids.tail.headD "")⟩, some SESSION_TIMEOUT⟩) := by
  constructor
  · intro sid e hp hsid he
    subst hp
    have hex : sessionExists st sid = true := by simp [sessionExists, he]
    have heq := get_session_refresh_eq st env sid hsid hex
    refine ⟨by rw [heq], ?_, ?_, ?_⟩
    · rw [heq]
      dsimp only
      rw [hset_expire_lookup, he]
      rfl
    · intro k hk
      rw [heq]
      dsimp only
      exact hset_expire_lookup_other st sid k _ _ hk
    · rw [heq]
      dsimp only
      exact hset_expire_hist st sid _ _
  · intro hmiss
    rw [get_session_miss_eq st env presented hmiss]
    exact create_session_lookup st env

theorem c2_get_session_spec_witness :
    (get_session ⟨[("s1", ⟨⟨some 1, some 1, some "", some "b1"⟩, some 1800⟩)], []⟩
        ⟨[9], []⟩ (some "s1")).1 = "s1" ∧
    (get_session ⟨[], []⟩ ⟨[5, 7], ["n1", "nb"]⟩ none).1 = "n1" :=
  ⟨((c2_get_session_spec ⟨[("s1", ⟨⟨some 1, some 1, some "", some "b1"⟩, some 1800⟩)], []⟩
      ⟨[9], []⟩ (some "s1")).1 "s1"
      ⟨⟨some 1, some 1, some "", some "b1"⟩, some 1800⟩ rfl (by decide) rfl).1,
   ((c2_get_session_spec ⟨[], []⟩ ⟨[5, 7], ["n1", "nb"]⟩ none).2
      (fun _ h => by cases h)).1⟩

theorem clearStep_lookup_other (now : Nat) (s : SM) (k sid : String) (h : sid ≠ k) :
    lookupA (clearStep now s k).store.sessions sid = lookupA s.store.sessions sid ∧
    lookupA (clearStep now s k).store.histories sid = lookupA s.store.histories sid := by
  cases h1 : lookupA s.store.sessions k with
  | none => simp [clearStep, h1]
  | some e =>
    cases h2 : e.hash.last_active with
    | none => simp [clearStep, h1, h2]
    | some la =>
      by_cases h3 : SESSION_TIMEOUT < now - la
      · simp [clearStep, h1, h2, h3, lookupA_delA_ne h]
      · simp [clearStep, h1, h2, h3]

theorem clearStep_none_pres (now : Nat) (s : SM) (k : String) :
    (∀ sid, lookupA s.store.sessions sid = none →
      lookupA (clearStep now s k).store.sessions sid = none) ∧
    (∀ sid, lookupA s.store.histories sid = none →
      lookupA (clearStep now s k).store.histories sid = none) ∧
    (∀ b, lookupA s.browsers b = none →
      lookupA (clearStep now s k).browsers b = none) := by
  cases h1 : lookupA s.store.sessions k with
  | none => simp [clearStep, h1]
  | some e =>
    cases h2 : e.hash.last_active with
    | none => simp [clearStep, h1, h2]
    | some la =>
      by_cases h3 : SESSION_TIMEOUT < now - la
      · refine ⟨?_, ?_, ?_⟩
        · intro sid hs
          simp [clearStep, h1, h2, h3, lookupA_delA_of_none hs]
        · intro sid hs
          simp [clearStep, h1, h2, h3, lookupA_delA_of_none hs]
        · intro b hs
          by_cases h4 : (lookupA s.browsers e.hash.browser_id).isSome
          · simp [clearStep, h1, h2, h3, h4, lookupA_delA_of_none hs]
          · simp [clearStep, h1, h2, h3, h4, hs]
      · simp [clearStep, h1, h2, h3]

theorem clearStep_stale_cleared (now : Nat) (s : SM) (sid : String) (e : Entry)
    (la : Nat) (hlk : lookupA s.store.sessions sid = some e)
    (hla : e.hash.last_active = some la) (hst : SESSION_TIMEOUT < now - la) :
    lookupA (clearStep now s sid).store.sessions sid = none ∧
    lookupA (clearStep now s sid).store.histories sid = none ∧
    lookupA (clearStep now s sid).browsers e.hash.browser_id = none := by
  refine ⟨?_, ?_, ?_⟩
  · simp [clearStep, hlk, hla, hst, lookupA_delA_self]
  · simp [clearStep, hlk, hla, hst, lookupA_delA_self]
  · by_cases h4 : (lookupA s.browsers e.hash.browser_id).isSome
    · simp [clearStep, hlk, hla, hst, h4, lookupA_delA_self]
    · have h5 : lookupA s.browsers e.hash.browser_id = none :=
        Option.not_isSome_iff_eq_none.mp h4
      simp [clearStep, hlk, hla, hst, h4, h5]

theorem clearStep_fresh (now : Nat) (s : SM) (sid : String) (e : Entry) (la : Nat)
    (hlk : lookupA s.store.sessions sid = some e)
    (hla : e.hash.last_active = some la) (hst : ¬ SESSION_TIMEOUT < now - la) :
    clearStep now s sid = s := by
  simp [clearStep, hlk, hla, hst]

theorem clearFold_none (now : Nat) (sid : String) (b : Option String) :
    ∀ (ks : List String) (s : SM),
      lookupA s.store.sessions sid = none →
      lookupA s.store.histories sid = none →
      lookupA s.browsers b = none →
      lookupA (ks.foldl (clearStep now) s).store.sessions sid = none ∧
      lookupA (ks.foldl (clearStep now) s).store.histories sid = none ∧
      lookupA (ks.foldl (clearStep now) s).browsers b = none := by
  intro ks
  induction ks with
  | nil =>
    intro s h1 h2 h3
    exact ⟨h1, h2, h3⟩
  | cons k t ih =>
    intro s h1 h2 h3
    have hc := clearStep_none_pres now s k
    exact ih (clearStep now s k) (hc.1 sid h1) (hc.2.1 sid h2) (hc.2.2 b h3)

theorem clearFold_stale (now : Nat) (sid : String) (e : Entry) (la : Nat)
    (hla : e.hash.last_active = some la) (hst : SESSION_TIMEOUT < now - la) :
    ∀ (ks : List String) (s : SM),
      lookupA s.store.sessions sid = some e → sid ∈ ks →
      lookupA (ks.foldl (clearStep now) s).store.sessions sid = none ∧
      lookupA (ks.foldl (clearStep now) s).store.histories sid = none ∧
      lookupA (ks.foldl (clearStep now) s).browsers e.hash.browser_id = none := by
  intro ks
  induction ks with
  | nil =>
    intro s _ hmem
    simp at hmem
  | cons k t ih =>
    intro s hlk hmem
    by_cases hk : k = sid
    · subst hk
      have hc := clearStep_stale_cleared now s k e la hlk hla hst
      exact clearFold_none now k e.hash.browser_id t (clearStep now s k)
        hc.1 hc.2.1 hc.2.2
    · have ho := clearStep_lookup_other now s k sid (Ne.symm hk)
      have hmem2 : sid ∈ t := by
        rcases List.mem_cons.mp hmem with h | h
        · exact absurd h.symm hk
        · exact h
      exact ih (clearStep now s k) (by rw [ho.1]; exact hlk) hmem2

theorem clearFold_fresh (now : Nat) (sid : String) (e : Entry) (la : Nat)
    (hla : e.hash.last_active = some la) (hst : ¬ SESSION_TIMEOUT < now - la) :
    ∀ (ks : List String) (s : SM),
      lookupA s.store.sessions sid = some e →
      lookupA (ks.foldl (clearStep now) s).store.sessions sid = some e ∧
      lookupA (ks.foldl (clearStep now) s).store.histories sid =
        lookupA s.store.histories sid := by
  intro ks
  induction ks with
  | nil =>
    intro s hlk
    exact ⟨hlk, rfl⟩
  | cons k t ih =>
    intro s hlk
    by_cases hk : k = sid
    · subst hk
      simp only [List.foldl_cons, clearStep_fresh now s k e la hlk hla hst]
      exact ih s hlk
    · have ho := clearStep_lookup_other now s k sid (Ne.symm hk)
      have hrec := ih (clearStep now s k) (by rw [ho.1]; exact hlk)
      refine ⟨?_, ?_⟩
      · rw [List.foldl_cons]
        exact hrec.1
      · rw [List.foldl_cons, hrec.2, ho.2]

/-- C7: after one `clear_inactive_sessions` pass at time `now`, every session
whose `last_active` is older than the idle timeout has its session and
history records deleted and its pool browser (if any) released, and every
session touched within the idle timeout keeps its session record unchanged
and its history record untouched by the pass. -/
theorem c7_clear_inactive_spec (sm : SM) (now : Nat) (sid : String) (e : Entry)
    (la : Nat) (hlk : lookupA sm.store.sessions sid = some e)
    (hla : e.hash.last_active = some la) :
    (SESSION_TIMEOUT < now - la →
      lookupA (clear_inactive_sessions now sm).store.sessions sid = none ∧
      lookupA (clear_inactive_sessions now sm).store.histories sid = none ∧
      lookupA (clear_inactive_sessions now sm).browsers e.hash.browser_id = none) ∧
    (¬ SESSION_TIMEOUT < now - la →
      lookupA (clear_inactive_sessions now sm).store.sessions sid = some e ∧
      lookupA (clear_inactive_sessions now sm).store.histories sid =
        lookupA sm.store.histories sid) := by
  constructor
  · intro hst
    exact clearFold_stale now sid e la hla hst _ sm hlk
      (lookupA_mem sm.store.sessions sid e hlk)
  · intro hst
    exact clearFold_fresh now sid e la hla hst _ sm hlk

def clearWitnessSM : SM :=
  ⟨⟨[("old", ⟨⟨some 0, some 0, some "", some "bOld"⟩, some 1800⟩),
     ("fresh", ⟨⟨some 4000, some 4000, some "", some "bNew"⟩, some 1800⟩)],
    [("old", ⟨[], some 1800⟩)]⟩,
   [(some "bOld", 0), (some "bNew", 1)], 2⟩

theorem c7_clear_inactive_spec_witness :
    (lookupA (clear_inactive_sessions 5000 clearWitnessSM).store.sessions "old" =
        none ∧
      lookupA (clear_inactive_sessions 5000 clearWitnessSM).store.histories "old" =
        none ∧
      lookupA (clear_inactive_sessions 5000 clearWitnessSM).browsers (some "bOld") =
        none) ∧
    (lookupA (clear_inactive_sessions 5000 clearWitnessSM).store.sessions "fresh" =
        some ⟨⟨some 4000, some 4000, some "", some "bNew"⟩, some 1800⟩ ∧
      lookupA (clear_inactive_sessions 5000 clearWitnessSM).store.histories "fresh" =
        lookupA clearWitnessSM.store.histories "fresh") :=
  ⟨(c7_clear_inactive_spec clearWitnessSM 5000 "old"
      ⟨⟨some 0, some 0, some "", some "bOld"⟩, some 1800⟩ 0 rfl rfl).1 (by decide),
   (c7_clear_inactive_spec clearWitnessSM 5000 "fresh"
      ⟨⟨some 4000, some 4000, some "", some "bNew"⟩, some 1800⟩ 4000 rfl rfl).2
     (by decide)⟩

theorem get_session_data_of_exists {st : Store} {sid : String} {e : Entry}
    (h : lookupA st.sessions sid = some e) :
    get_session_data st sid = .ok e.hash := by
  simp [get_session_data, h]

theorem execute_task_main_refine_error (sm1 : SM) (env1 : Env)
    (sid task : String) (inc : Bool) (rsid : Option String)
    (rfNew : Except Exc RagData) (d2 : RagData) (emsg : String)
    (agentRun : Except String AgentHistory) (cleanShot : Except String String)
    (h1 : optTruthy rsid = true) (h2 : optTruthy d2.answer = true)
    (hrec : ∃ e, lookupA sm1.store.sessions sid = some e) :
    (execute_task_main sm1 env1 sid task inc rsid rfNew (.ok d2) (.error emsg)
        agentRun cleanShot).1 =
      .error (.http ⟨500, "Error processing task: " ++ emsg⟩) := by
  obtain ⟨e, he⟩ := hrec
  simp [execute_task_main, h1, h2, get_session_data_of_exists he,
    process_user_task]

theorem execute_task_try_refine_error (sm : SM) (env : Env)
    (sid_dep task : String) (inc ns : Bool) (rsid : Option String)
    (rfNew : Except Exc RagData) (d2 : RagData) (emsg : String)
    (agentRun : Except String AgentHistory) (cleanShot : Except String String)
    (h1 : optTruthy rsid = true) (h2 : optTruthy d2.answer = true)
    (hrec : ∃ e, lookupA sm.store.sessions sid_dep = some e) :
    (execute_task_try sm env sid_dep task inc ns rsid rfNew (.ok d2)
        (.error emsg) agentRun cleanShot).1 =
      .error (.http ⟨500, "Error processing task: " ++ emsg⟩) := by
  cases ns with
  | false =>
    simpa [execute_task_try] using
      execute_task_main_refine_error sm env sid_dep task inc rsid rfNew d2 emsg
        agentRun cleanShot h1 h2 hrec
  | true =>
    obtain ⟨e1, he1⟩ := create_session_exists sm.store env
    simpa [execute_task_try] using
      execute_task_main_refine_error
        ⟨(create_session sm.store env).2.1, sm.browsers, sm.nextBrowser⟩
        (create_session sm.store env).2.2 (create_session sm.store env).1 task
        inc rsid rfNew d2 emsg agentRun cleanShot h1 h2 ⟨e1, he1⟩

/-- C4 counterexample: with every stage before refinement succeeding and the
LLM refinement capability failing (message "boom"), the pipeline does not
continue with the raw instruction and does not return status "success":
`process_user_task` raises HTTP 500 and `execute_task` surfaces
HTTP 500. -/
theorem c4_refinement_failure_cex :
    (execute_task ⟨⟨[], []⟩, [], 0⟩ ⟨[1, 2, 3], ["sid1", "bid1"]⟩ none
        "do a thing" true false (some "rs") (.ok ⟨some "rs", some "ans"⟩)
        (.ok ⟨some "rs", some "ans"⟩) (.error "boom") (.ok ⟨[]⟩)
        (.ok "shot")).1 =
      .error ⟨500, "Error executing task: 500: Error processing task: boom"⟩ := by
  rfl

/-- C4 amended: for every request that reaches the refinement step (the
RAGFlow stage yielded a truthy answer) and whose LLM refinement capability
fails, `process_user_task` raises `HTTPException(500, "Error processing
task: ...")` and the catch-all of `execute_task` fails the request with
`HTTPException(500, "Error executing task: ...")`: the pipeline does not
fall back to the raw instruction and returns no success response. -/
theorem c4_refinement_failure_fails (sm : SM) (env : Env)
    (hdr : Option String) (task : String) (inc ns : Bool)
    (rsid : Option String) (rfNew : Except Exc RagData) (d2 : RagData)
    (emsg : String) (agentRun : Except String AgentHistory)
    (cleanShot : Except String String)
    (h1 : optTruthy rsid = true) (h2 : optTruthy d2.answer = true) :
    (execute_task sm env hdr task inc ns rsid rfNew (.ok d2) (.error emsg)
        agentRun cleanShot).1 =
      .error (wrapTaskError (.http ⟨500, "Error processing task: " ++ emsg⟩)) := by
  obtain ⟨e0, he0⟩ := get_session_exists sm.store env hdr
  have htry := execute_task_try_refine_error
    ⟨(get_session sm.store env hdr).2.1, sm.browsers, sm.nextBrowser⟩
    (get_session sm.store env hdr).2.2 (get_session sm.store env hdr).1 task
    inc ns rsid rfNew d2 emsg agentRun cleanShot h1 h2 ⟨e0, he0⟩
  simp only [execute_task]
  rw [htry]

theorem c4_refinement_failure_fails_witness :
    (execute_task ⟨⟨[], []⟩, [], 0⟩ ⟨[1, 2, 3], ["sid1", "bid1"]⟩ none "t2"
        true true (some "rs2") (.ok ⟨some "rs2", some "ans2"⟩)
        (.ok ⟨some "rs2", some "ans2"⟩) (.error "down") (.ok ⟨[]⟩)
        (.error "noshot")).1 =
      .error (wrapTaskError (.http ⟨500, "Error processing task: " ++ "down"⟩)) :=
  c4_refinement_failure_fails ⟨⟨[], []⟩, [], 0⟩ ⟨[1, 2, 3], ["sid1", "bid1"]⟩
    none "t2" true true (some "rs2") (.ok ⟨some "rs2", some "ans2"⟩)
    ⟨some "rs2", some "ans2"⟩ "down" (.ok ⟨[]⟩) (.error "noshot") rfl rfl

end Agentics
